import Mathlib

/-!
Verification of a small EPL football-match statistics program.

The program (one Python module) has three classes:
  * `Match`      — one fixture: two team names, a date parsed from
                   "day/month/year" text, and the two scores stored verbatim;
  * `MatchDataLoader` — splits comma-separated rows into `Match` records;
  * `MatchAnalyzer`   — count / per-team filter / wins queries over a list.

Python strings are embedded as `List Char` (`Str`), Python exceptions as
`Except PyErr`, and score attributes (which the code stores without any
conversion, so they may be `int` or `str`) as the sum type `PyVal`.
-/

namespace EPL

/-- Python strings, embedded as lists of characters. -/
abbrev Str := List Char

/-- The Python exceptions the module can raise: `ValueError` (from
`datetime.strptime`), `IndexError` (list index out of range), and
`TypeError` (ordering two values of incompatible types). -/
inductive PyErr where
  | valueError
  | indexError
  | typeError
deriving DecidableEq

/-- A dynamically-typed Python value as used for the score attributes:
the constructor stores whatever it is handed, an `int` or a `str`. -/
inductive PyVal where
  | int (n : Int)
  | str (s : Str)
deriving DecidableEq

instance {ε α : Type} [DecidableEq ε] [DecidableEq α] : DecidableEq (Except ε α) := fun x y =>
  match x, y with
  | .ok a, .ok b =>
    if h : a = b then isTrue (by rw [h]) else isFalse (by simp [h])
  | .error a, .error b =>
    if h : a = b then isTrue (by rw [h]) else isFalse (by simp [h])
  | .ok _, .error _ => isFalse (by simp)
  | .error _, .ok _ => isFalse (by simp)

/-- Python's `str.split(sep)` with a single-character separator: splitting
the empty string gives `[""]`, and every occurrence of the separator starts
a new (possibly empty) field. -/
def splitOnChar (c : Char) : Str → List Str
  | [] => [[]]
  | x :: xs =>
    if x = c then [] :: splitOnChar c xs
    else
      match splitOnChar c xs with
      | [] => [[x]]
      | p :: ps => (x :: p) :: ps

/-- The date component of `datetime.datetime` that the program uses. -/
structure DateDMY where
  day : Nat
  month : Nat
  year : Nat
deriving DecidableEq

/-- Numeric value of a digit string (most significant digit first). -/
def strVal (s : Str) : Nat :=
  s.foldl (fun n ch => 10 * n + (ch.toNat - 48)) 0

/-- All characters are decimal digits. -/
def allDigits (s : Str) : Bool :=
  s.all Char.isDigit

/-- The `%d` component of `strptime`: one or two digits with value 1–31. -/
def parseDayField (s : Str) : Option Nat :=
  if allDigits s = true ∧ (s.length = 1 ∨ s.length = 2) ∧ 1 ≤ strVal s ∧ strVal s ≤ 31 then
    some (strVal s)
  else none

/-- The `%m` component of `strptime`: one or two digits with value 1–12. -/
def parseMonthField (s : Str) : Option Nat :=
  if allDigits s = true ∧ (s.length = 1 ∨ s.length = 2) ∧ 1 ≤ strVal s ∧ strVal s ≤ 12 then
    some (strVal s)
  else none

/-- The `%Y` component of `strptime`: exactly four digits; year 0 is
rejected by the `datetime` constructor. -/
def parseYearField (s : Str) : Option Nat :=
  if allDigits s = true ∧ s.length = 4 ∧ 1 ≤ strVal s then
    some (strVal s)
  else none

/-- Proleptic Gregorian leap-year rule used by `datetime`. -/
def isLeap (y : Nat) : Bool :=
  y % 4 = 0 && (y % 100 ≠ 0 || y % 400 = 0)

/-- Number of days of month `m` in year `y` (months counted 1–12). -/
def daysInMonth (m y : Nat) : Nat :=
  if m = 2 then (if isLeap y then 29 else 28)
  else if m = 4 ∨ m = 6 ∨ m = 9 ∨ m = 11 then 30
  else 31

/-- `datetime.datetime.strptime(s, "%d/%m/%Y")`: the string must be exactly
`day "/" month "/" four-digit-year` and the triple must be a real calendar
date; otherwise `ValueError` (here: `none`). -/
def strptimeDMY (s : Str) : Option DateDMY :=
  match splitOnChar '/' s with
  | [ds, ms, ys] =>
    match parseDayField ds, parseMonthField ms, parseYearField ys with
    | some d, some m, some y =>
      if d ≤ daysInMonth m y then some ⟨d, m, y⟩ else none
    | _, _, _ => none
  | _ => none

/-- One match record: `Match.__init__` stores both team names and both
scores verbatim and parses the date text with `strptime`. -/
structure Match where
  home_team : Str
  away_team : Str
  date : DateDMY
  home_team_score : PyVal
  away_team_score : PyVal
deriving DecidableEq

/-- `Match(date, home_team, away_team, home_team_score, away_team_score)`:
raises `ValueError` when the date text does not parse; the score arguments
are stored without validation or conversion. -/
def Match.init (date : Str) (home_team away_team : Str) (hscore ascore : PyVal) :
    Except PyErr Match :=
  match strptimeDMY date with
  | some d => .ok ⟨home_team, away_team, d, hscore, ascore⟩
  | none => .error .valueError

/-- Python's `<` on two strings: lexicographic comparison of code points. -/
def lexLt : Str → Str → Bool
  | [], [] => false
  | [], _ :: _ => true
  | _ :: _, [] => false
  | a :: as', b :: bs' => a < b || (a = b && lexLt as' bs')

/-- Python's `>` on two dynamically-typed values: numeric order on two
ints, lexicographic order on two strings, `TypeError` (here `none`) on a
mixed pair. -/
def pyGt : PyVal → PyVal → Option Bool
  | .int a, .int b => some (decide (b < a))
  | .str a, .str b => some (lexLt b a)
  | _, _ => none

/-- `Match.winner()`: the home team name on `home_score > away_score`, the
away team name on `home_score < away_score`, `None` on equality; comparing
scores of incompatible types raises `TypeError`. -/
def Match.winner (m : Match) : Except PyErr (Option Str) :=
  match pyGt m.home_team_score m.away_team_score with
  | none => .error .typeError
  | some true => .ok (some m.home_team)
  | some false =>
    match pyGt m.away_team_score m.home_team_score with
    | none => .error .typeError
    | some true => .ok (some m.away_team)
    | some false => .ok none

/-- Loader state: the accumulated `self.data` list and the not yet
consumed lines of `self.data_file`. -/
structure MatchDataLoader where
  data : List Match
  data_file : List Str

/-- `MatchDataLoader(input_file)`: captures the line source, starts with an
empty `data` list, parses nothing yet. -/
def MatchDataLoader.init (input_file : List Str) : MatchDataLoader :=
  ⟨[], input_file⟩

/-- `MatchDataLoader.parse(row)`: split the row on commas and hand fields
0–4 to the `Match` constructor (fields 3 and 4 are therefore *strings*);
fewer than five fields is an out-of-range index, `IndexError`. -/
def MatchDataLoader.parse (row : Str) : Except PyErr Match :=
  match splitOnChar ',' row with
  | f0 :: f1 :: f2 :: f3 :: f4 :: _ => Match.init f0 f1 f2 (.str f3) (.str f4)
  | _ => .error .indexError

/-- The list comprehension `[self.parse(row) for row in rows]`: parses the
rows in order and propagates the first exception. -/
def parseAll : List Str → Except PyErr (List Match)
  | [] => .ok []
  | r :: rs => do
    let m ← MatchDataLoader.parse r
    let ms ← parseAll rs
    pure (m :: ms)

/-- `MatchDataLoader.load()`: `readlines()` consumes the whole remaining
source, the comprehension parses every line before the loop appends
anything to `self.data`, and `self.data` is returned. The pair is
(returned value or raised exception, loader state afterwards). -/
def MatchDataLoader.load (l : MatchDataLoader) : Except PyErr (List Match) × MatchDataLoader :=
  match parseAll l.data_file with
  | .ok parsed => (.ok (l.data ++ parsed), ⟨l.data ++ parsed, []⟩)
  | .error e => (.error e, ⟨l.data, []⟩)

/-- Analyzer state: the list handed to `MatchAnalyzer.__init__` and stored
as `self.matches` (`matches` is a Lean keyword, hence the field name). -/
structure MatchAnalyzer where
  match_data : List Match

/-- `MatchAnalyzer(match_data)`. -/
def MatchAnalyzer.init (match_data : List Match) : MatchAnalyzer :=
  ⟨match_data⟩

/-- `MatchAnalyzer.number_of_matches()`: `len(self.matches)`. -/
def MatchAnalyzer.number_of_matches (a : MatchAnalyzer) : Nat :=
  a.match_data.length

/-- `MatchAnalyzer.team_matches(team_name)`: the comprehension keeping the
matches whose home or away team name equals `team_name`. -/
def MatchAnalyzer.team_matches (a : MatchAnalyzer) (team_name : Str) : List Match :=
  a.match_data.filter fun m =>
    decide (m.home_team = team_name) || decide (m.away_team = team_name)

/-- A list comprehension whose predicate may raise: elements are tested in
order and the first exception propagates. -/
def filterE {α : Type} (p : α → Except PyErr Bool) : List α → Except PyErr (List α)
  | [] => .ok []
  | x :: xs => do
    let b ← p x
    let r ← filterE p xs
    pure (if b then x :: r else r)

/-- `MatchAnalyzer.matches_won(team_name, include_ties)`: filters
`team_matches(team_name)` by `winner() == team_name`, additionally
accepting `winner() == None` when `include_ties` is set. -/
def MatchAnalyzer.matches_won (a : MatchAnalyzer) (team_name : Str) (include_ties : Bool) :
    Except PyErr (List Match) :=
  let tm := a.team_matches team_name
  if include_ties then
    filterE (fun m => do
      let w ← m.winner
      pure (decide (w = some team_name) || decide (w = none))) tm
  else
    filterE (fun m => do
      let w ← m.winner
      pure (decide (w = some team_name))) tm

/-- The analyzer's three query methods, as abstract calls. -/
inductive Query where
  | numberOfMatches
  | teamMatches (name : Str)
  | matchesWon (name : Str) (includeTies : Bool)

/-- Result of one analyzer query. -/
inductive QueryResult where
  | count (n : Nat)
  | list (ms : List Match)
  | listE (r : Except PyErr (List Match))

/-- Run one query: each method only reads `self.matches` (no assignment to
any attribute occurs in the class), so the state after the call is the
state before it. -/
def MatchAnalyzer.runQuery (a : MatchAnalyzer) : Query → QueryResult × MatchAnalyzer
  | .numberOfMatches => (.count a.number_of_matches, a)
  | .teamMatches name => (.list (a.team_matches name), a)
  | .matchesWon name t => (.listE (a.matches_won name t), a)

/-- Run a sequence of queries, threading the analyzer state. -/
def runQueries (a : MatchAnalyzer) : List Query → MatchAnalyzer
  | [] => a
  | q :: qs => runQueries (a.runQuery q).2 qs

/-! ## Helper lemmas about splitting -/

/-- Splitting a string that does not contain the separator yields the one
field holding the whole string. -/
lemma splitOnChar_of_not_mem (c : Char) (a : Str) (h : c ∉ a) :
    splitOnChar c a = [a] := by
  induction a with
  | nil => rfl
  | cons x xs ih =>
    rw [List.mem_cons, not_or] at h
    show (if x = c then _ else _) = _
    rw [if_neg (fun hxc => h.1 hxc.symm), ih h.2]

/-- Splitting at the first separator occurrence peels off the first field. -/
lemma splitOnChar_append (c : Char) (a b : Str) (h : c ∉ a) :
    splitOnChar c (a ++ c :: b) = a :: splitOnChar c b := by
  induction a with
  | nil =>
    show (if c = c then _ else _) = _
    rw [if_pos rfl]
  | cons x xs ih =>
    rw [List.mem_cons, not_or] at h
    rw [List.cons_append]
    show (if x = c then _ else _) = _
    rw [if_neg (fun hxc => h.1 hxc.symm), ih h.2]

/-! ## C1 -/

/-- C1 (counterexample): constructing a Match from the row
`"1/1/2014,A,B,3,1"` succeeds, but its `home_team_score` is the *string*
`"3"` handed over by `split(',')`, not the integer `3` the claim asserts. -/
theorem C1_counterexample :
    Except.map Match.home_team_score (MatchDataLoader.parse ("1/1/2014,A,B,3,1".toList))
        = Except.ok (PyVal.str ['3'])
      ∧ PyVal.str ['3'] ≠ PyVal.int 3 := by
  decide

/-- C1 (amended): for a row `D,A,B,h,a` whose five fields are comma-free
and whose first field parses as the date (d, m, y), `MatchDataLoader.parse`
yields a Match with `home_team = A`, `away_team = B`, date fields exactly
(d, m, y), and the two scores stored as the verbatim field *strings*
`h` and `a` (not as the integers they denote). -/
theorem C1_row_fields (D A B hf af : Str) (d mo y : Nat)
    (hD : ',' ∉ D) (hA : ',' ∉ A) (hB : ',' ∉ B) (hh : ',' ∉ hf) (ha : ',' ∉ af)
    (hdate : strptimeDMY D = some ⟨d, mo, y⟩) :
    MatchDataLoader.parse (D ++ ',' :: (A ++ ',' :: (B ++ ',' :: (hf ++ ',' :: af)))) =
      .ok ⟨A, B, ⟨d, mo, y⟩, .str hf, .str af⟩ := by
  have hsplit : splitOnChar ',' (D ++ ',' :: (A ++ ',' :: (B ++ ',' :: (hf ++ ',' :: af))))
      = [D, A, B, hf, af] := by
    rw [splitOnChar_append _ _ _ hD, splitOnChar_append _ _ _ hA,
        splitOnChar_append _ _ _ hB, splitOnChar_append _ _ _ hh,
        splitOnChar_of_not_mem _ _ ha]
  simp only [MatchDataLoader.parse, hsplit, Match.init, hdate]

/-- C1 (witness): the amended row-parsing theorem applied to the concrete
row `"1/1/2014,Everton,Stoke City,3,1"`. -/
theorem C1_row_fields_witness :
    MatchDataLoader.parse
        ("1/1/2014".toList ++ ',' :: ("Everton".toList ++ ',' ::
          ("Stoke City".toList ++ ',' :: ("3".toList ++ ',' :: "1".toList)))) =
      .ok ⟨"Everton".toList, "Stoke City".toList, ⟨1, 1, 2014⟩,
        .str "3".toList, .str "1".toList⟩ :=
  C1_row_fields _ _ _ _ _ 1 1 2014 (by decide) (by decide) (by decide)
    (by decide) (by decide) (by decide)

/-! ## C2 -/

/-- C2 (counterexample): in the match `X vs X` with integer scores 0 and 1,
`winner()` returns the home team *name* (both sides are called `X`), yet
`h > a` is false — so "returns the home team name iff `h > a`" fails when
the two team names coincide. -/
theorem C2_counterexample :
    (Match.mk ['X'] ['X'] ⟨1, 1, 2014⟩ (.int 0) (.int 1)).winner
        = Except.ok (some (Match.mk ['X'] ['X'] ⟨1, 1, 2014⟩ (.int 0) (.int 1)).home_team)
      ∧ ¬ ((1 : Int) < 0) := by
  decide

/-- C2 (amended): for a Match with *distinct* team names and non-negative
integer scores `h` and `a`, `winner()` returns the home team name iff
`h > a`, the away team name iff `h < a`, the tie marker (`None`) iff
`h = a`, and never any other value. -/
theorem C2_winner (m : Match) (h a : Int)
    (hsc : m.home_team_score = .int h) (asc : m.away_team_score = .int a)
    (hpos : 0 ≤ h) (apos : 0 ≤ a) (hne : m.home_team ≠ m.away_team) :
    (m.winner = .ok (some m.home_team) ↔ a < h)
    ∧ (m.winner = .ok (some m.away_team) ↔ h < a)
    ∧ (m.winner = .ok none ↔ h = a)
    ∧ (m.winner = .ok (some m.home_team) ∨ m.winner = .ok (some m.away_team)
        ∨ m.winner = .ok none) := by
  have e1 : m.winner =
      (if a < h then Except.ok (some m.home_team)
       else if h < a then .ok (some m.away_team) else .ok none) := by
    simp only [Match.winner, hsc, asc, pyGt]
    by_cases h1 : a < h
    · simp [h1]
    · by_cases h2 : h < a
      · simp [h1, h2]
      · simp [h1, h2]
  have hne' : m.away_team ≠ m.home_team := fun hh => hne hh.symm
  rw [e1]
  rcases lt_trichotomy a h with hlt | heq | hgt
  · simp only [if_pos hlt]
    refine ⟨?_, ?_, ?_, ?_⟩
    · simp [hlt]
    · simp [hne, lt_asymm hlt]
    · simp [(ne_of_gt hlt : h ≠ a)]
    · exact Or.inl trivial
  · subst heq
    simp only [if_neg (lt_irrefl a)]
    refine ⟨?_, ?_, ?_, ?_⟩
    · simp [lt_irrefl a]
    · simp [lt_irrefl a]
    · simp
    · exact Or.inr (Or.inr trivial)
  · simp only [if_neg (lt_asymm hgt), if_pos hgt]
    refine ⟨?_, ?_, ?_, ?_⟩
    · simp [hne', lt_asymm hgt]
    · simp [hgt]
    · simp [(ne_of_lt hgt : h ≠ a)]
    · exact Or.inr (Or.inl trivial)

/-- C2 (witness): the amended winner theorem applied to Everton 2–0
Stoke City. -/
theorem C2_winner_witness :
    (Match.mk "Everton".toList "Stoke City".toList ⟨1, 1, 2014⟩
        (.int 2) (.int 0)).winner = Except.ok (some "Everton".toList) := by
  have hw := C2_winner
    (Match.mk "Everton".toList "Stoke City".toList ⟨1, 1, 2014⟩ (.int 2) (.int 0))
    2 0 rfl rfl (by decide) (by decide) (by decide)
  exact hw.1.mpr (by decide)

/-! ## C3 -/

/-- C3 (counterexample): `Match` construction with the non-integer score
strings `"x"` and `"y"` *succeeds* — the constructor stores the scores
verbatim and never checks that they are integer-parseable, contrary to the
claim that such a construction must fail. -/
theorem C3_counterexample :
    Match.init "1/1/2014".toList "A".toList "B".toList (.str "x".toList) (.str "y".toList)
      = .ok ⟨"A".toList, "B".toList, ⟨1, 1, 2014⟩, .str "x".toList, .str "y".toList⟩ := by
  decide

/-- C3 (amended): `Match` construction fails (with `ValueError`) exactly
when the date string does not parse under the day/month/year pattern; the
score arguments are never validated, and on success they are stored
verbatim whatever they are. -/
theorem C3_construction_fails_iff (date home away : Str) (hscore ascore : PyVal) :
    (Match.init date home away hscore ascore = .error .valueError
        ↔ strptimeDMY date = none)
    ∧ (∀ d, strptimeDMY date = some d →
        Match.init date home away hscore ascore = .ok ⟨home, away, d, hscore, ascore⟩) := by
  cases hd : strptimeDMY date <;> simp [Match.init, hd]

/-- C3 (witness): the amended theorem at the invalid calendar date
`31/2/2014`, where construction does fail. -/
theorem C3_construction_fails_iff_witness :
    Match.init "31/2/2014".toList "A".toList "B".toList (.int 3) (.int 1)
      = .error .valueError :=
  (C3_construction_fails_iff "31/2/2014".toList "A".toList "B".toList
    (.int 3) (.int 1)).1.mpr (by decide)

/-! ## C4 -/

/-- C4 (confirmed): a row that splits into fewer than five comma-separated
fields makes `MatchDataLoader.parse` fail with the out-of-range access
(`IndexError`, the FormatError-equivalent condition the spec allows) and
produce no Match. -/
theorem C4_short_row (row : Str) (h : (splitOnChar ',' row).length < 5) :
    MatchDataLoader.parse row = .error .indexError := by
  unfold MatchDataLoader.parse
  rcases h5 : splitOnChar ',' row with _ | ⟨f0, _ | ⟨f1, _ | ⟨f2, _ | ⟨f3, _ | ⟨f4, rest⟩⟩⟩⟩⟩ <;>
    first
      | rfl
      | (rw [h5] at h; simp only [List.length] at h; omega)

/-- C4 (witness): the two-field row `"a,b"` fails with `IndexError`. -/
theorem C4_short_row_witness :
    MatchDataLoader.parse "a,b".toList = .error .indexError :=
  C4_short_row "a,b".toList (by decide)

/-! ## Helper lemmas about the loader -/

/-- Bind on a successful `Except` computation. -/
lemma bindOkEq {ε α β : Type} (a : α) (f : α → Except ε β) :
    (Except.ok a : Except ε α) >>= f = f a := rfl

/-- Bind on a failed `Except` computation. -/
lemma bindErrorEq {ε α β : Type} (e : ε) (f : α → Except ε β) :
    (Except.error e : Except ε α) >>= f = .error e := rfl

/-- On `Except`, `pure` builds the `ok` constructor. -/
lemma pureOkEq {ε α : Type} (a : α) : (pure a : Except ε α) = .ok a := rfl

/-- On a fresh loader the value returned by `load()` is exactly the result
of parsing all lines. -/
lemma load_init_fst (lines : List Str) :
    (MatchDataLoader.load (MatchDataLoader.init lines)).1 = parseAll lines := by
  unfold MatchDataLoader.load MatchDataLoader.init
  cases h : parseAll lines <;> simp [h]

/-- A successful `parseAll` yields one Match per input line. -/
lemma parseAll_ok_length (lines : List Str) (ms : List Match)
    (h : parseAll lines = .ok ms) : ms.length = lines.length := by
  induction lines generalizing ms with
  | nil =>
    simp only [parseAll, Except.ok.injEq] at h
    subst h
    rfl
  | cons r rs ih =>
    unfold parseAll at h
    cases hp : MatchDataLoader.parse r with
    | error e => rw [hp, bindErrorEq] at h; exact absurd h (by simp)
    | ok m =>
      rw [hp, bindOkEq] at h
      cases hq : parseAll rs with
      | error e => rw [hq, bindErrorEq] at h; exact absurd h (by simp)
      | ok ms2 =>
        rw [hq, bindOkEq] at h
        simp only [pureOkEq, Except.ok.injEq] at h
        subst h
        simp [ih ms2 hq]

/-- A successful `parseAll` parses the i-th line to the i-th result. -/
lemma parseAll_ok_get (lines : List Str) (ms : List Match)
    (h : parseAll lines = .ok ms) :
    ∀ i (hi : i < lines.length) (hm : i < ms.length),
      MatchDataLoader.parse (lines.get ⟨i, hi⟩) = .ok (ms.get ⟨i, hm⟩) := by
  induction lines generalizing ms with
  | nil => intro i hi; exact absurd hi (Nat.not_lt_zero i)
  | cons r rs ih =>
    unfold parseAll at h
    cases hp : MatchDataLoader.parse r with
    | error e => rw [hp, bindErrorEq] at h; exact absurd h (by simp)
    | ok m =>
      rw [hp, bindOkEq] at h
      cases hq : parseAll rs with
      | error e => rw [hq, bindErrorEq] at h; exact absurd h (by simp)
      | ok ms2 =>
        rw [hq, bindOkEq] at h
        simp only [pureOkEq, Except.ok.injEq] at h
        subst h
        intro i hi hm
        cases i with
        | zero => exact hp
        | succ n => exact ih ms2 hq n (Nat.lt_of_succ_lt_succ hi) (Nat.lt_of_succ_lt_succ hm)

/-- When every line before position `i` parses and line `i` fails, the
whole `parseAll` fails with that error. -/
lemma parseAll_first_error (lines : List Str) (i : Nat) (hi : i < lines.length) (e : PyErr)
    (hpe : MatchDataLoader.parse (lines.get ⟨i, hi⟩) = .error e)
    (hall : ∀ j (hj : j < lines.length), j < i →
      ∃ m, MatchDataLoader.parse (lines.get ⟨j, hj⟩) = .ok m) :
    parseAll lines = .error e := by
  induction lines generalizing i with
  | nil => exact absurd hi (Nat.not_lt_zero i)
  | cons r rs ih =>
    cases i with
    | zero =>
      have hpe' : MatchDataLoader.parse r = .error e := hpe
      unfold parseAll
      rw [hpe', bindErrorEq]
    | succ n =>
      obtain ⟨m, hm⟩ := hall 0 (Nat.succ_pos rs.length) (Nat.succ_pos n)
      have hm' : MatchDataLoader.parse r = .ok m := hm
      unfold parseAll
      rw [hm', bindOkEq]
      have htail : parseAll rs = .error e := by
        refine ih n (Nat.lt_of_succ_lt_succ hi) hpe ?_
        intro j hj hji
        exact hall (j + 1) (Nat.succ_lt_succ hj) (Nat.succ_lt_succ hji)
      rw [htail, bindErrorEq]

/-! ## C5 -/

/-- C5 (confirmed): on a fresh loader, a successful `load()` returns one
Match per input line, in input order, each obtained by `parse` on its
line; and if some line is malformed, the error of the first failing line
is the outcome of `load()` — no record list is returned for that call. -/
theorem C5_load_first (lines : List Str) :
    (∀ ms, (MatchDataLoader.load (MatchDataLoader.init lines)).1 = .ok ms →
        ms.length = lines.length ∧
        ∀ i (hi : i < lines.length) (hm : i < ms.length),
          MatchDataLoader.parse (lines.get ⟨i, hi⟩) = .ok (ms.get ⟨i, hm⟩))
    ∧ (∀ i (hi : i < lines.length) (e : PyErr),
        MatchDataLoader.parse (lines.get ⟨i, hi⟩) = .error e →
        (∀ j (hj : j < lines.length), j < i →
          ∃ m, MatchDataLoader.parse (lines.get ⟨j, hj⟩) = .ok m) →
        (MatchDataLoader.load (MatchDataLoader.init lines)).1 = .error e) := by
  constructor
  · intro ms hms
    rw [load_init_fst] at hms
    exact ⟨parseAll_ok_length lines ms hms, parseAll_ok_get lines ms hms⟩
  · intro i hi e hpe hall
    rw [load_init_fst]
    exact parseAll_first_error lines i hi e hpe hall

/-- C5 (witness): the fail-fast half of the theorem on the one-line source
whose only line has two fields. -/
theorem C5_load_first_witness :
    (MatchDataLoader.load (MatchDataLoader.init ["a,b".toList])).1
      = .error .indexError :=
  (C5_load_first ["a,b".toList]).2 0 (by decide) .indexError (by decide)
    (fun j _ hji => absurd hji (Nat.not_lt_zero j))

/-! ## C6 -/

/-- C6 (counterexample): after a successful first `load()` of a one-line
source, a second `load()` without resetting returns the *same, full*
one-element list again (the loader keeps returning its accumulated
`self.data`), not an empty or strictly smaller result. -/
theorem C6_counterexample :
    ((MatchDataLoader.load (MatchDataLoader.load
          (MatchDataLoader.init ["1/1/2014,A,B,3,1".toList])).2).1 =
        (MatchDataLoader.load (MatchDataLoader.init ["1/1/2014,A,B,3,1".toList])).1)
    ∧ (MatchDataLoader.load (MatchDataLoader.init ["1/1/2014,A,B,3,1".toList])).1
        = .ok [⟨"A".toList, "B".toList, ⟨1, 1, 2014⟩, .str "3".toList, .str "1".toList⟩] := by
  decide

/-- C6 (amended): if the first `load()` call returned `ms`, a second
`load()` on the resulting loader state returns exactly `ms` again: the
exhausted source contributes nothing new, and the accumulated stored list
is handed back in full. -/
theorem C6_second_load (l : MatchDataLoader) (ms : List Match)
    (h : (MatchDataLoader.load l).1 = .ok ms) :
    (MatchDataLoader.load (MatchDataLoader.load l).2).1 = .ok ms := by
  unfold MatchDataLoader.load at h ⊢
  cases hp : parseAll l.data_file with
  | ok parsed =>
    rw [hp] at h
    simp only [Except.ok.injEq] at h
    simp [hp, parseAll, h]
  | error e =>
    rw [hp] at h
    simp at h

/-- C6 (witness): the amended theorem on a concrete one-line source. -/
theorem C6_second_load_witness :
    (MatchDataLoader.load (MatchDataLoader.load
        (MatchDataLoader.init ["1/1/2014,C,D,2,2".toList])).2).1 =
      .ok [⟨"C".toList, "D".toList, ⟨1, 1, 2014⟩, .str "2".toList, .str "2".toList⟩] :=
  C6_second_load _ _ (by decide)

/-! ## C7 -/

/-- C7 (confirmed): `team_matches(name)` is a subsequence of the stored
list (hence original order, right multiplicities), contains exactly the
matches in which `name` is the home or the away team under exact string
equality, and is empty when no stored match involves `name`. Being a total
function, it never fails. -/
theorem C7_team_matches (a : MatchAnalyzer) (name : Str) :
    List.Sublist (a.team_matches name) a.match_data
    ∧ (∀ m ∈ a.team_matches name, m.home_team = name ∨ m.away_team = name)
    ∧ (∀ m ∈ a.match_data, (m.home_team = name ∨ m.away_team = name) →
        m ∈ a.team_matches name)
    ∧ ((∀ m ∈ a.match_data, ¬(m.home_team = name ∨ m.away_team = name)) →
        a.team_matches name = []) := by
  unfold MatchAnalyzer.team_matches
  refine ⟨List.filter_sublist _, ?_, ?_, ?_⟩
  · intro m hm
    have hmem := List.mem_filter.mp hm
    simpa using hmem.2
  · intro m hm hor
    refine List.mem_filter.mpr ⟨hm, ?_⟩
    simpa using hor
  · intro hnone
    rw [List.filter_eq_nil_iff]
    intro m hm
    simpa using hnone m hm

/-- C7 (witness): Everton appears (home or away) in both stored matches,
Arsenal in one, and an unknown team name yields the empty list. -/
theorem C7_team_matches_witness :
    (MatchAnalyzer.mk
        [⟨"Everton".toList, "Stoke City".toList, ⟨1, 1, 2014⟩, .int 2, .int 0⟩,
         ⟨"Everton".toList, "Arsenal".toList, ⟨1, 1, 2014⟩, .int 2, .int 2⟩]).team_matches
      "NoSuchTeam".toList = [] :=
  (C7_team_matches
    (MatchAnalyzer.mk
      [⟨"Everton".toList, "Stoke City".toList, ⟨1, 1, 2014⟩, .int 2, .int 0⟩,
       ⟨"Everton".toList, "Arsenal".toList, ⟨1, 1, 2014⟩, .int 2, .int 2⟩])
    "NoSuchTeam".toList).2.2.2 (by decide)

/-! ## C8 -/

/-- When the monadic predicate succeeds on every element with the value of
a pure predicate, the effectful filter is the pure filter. -/
lemma filterE_eq_filter {α : Type} (p : α → Except PyErr Bool) (q : α → Bool) (l : List α)
    (h : ∀ x ∈ l, p x = .ok (q x)) : filterE p l = .ok (l.filter q) := by
  induction l with
  | nil => rfl
  | cons x xs ih =>
    unfold filterE
    rw [h x (List.mem_cons_self x xs), bindOkEq,
      ih (fun y hy => h y (List.mem_cons_of_mem x hy)), bindOkEq]
    cases hqx : q x <;> simp [List.filter_cons, hqx, pureOkEq]

/-- C8 (confirmed): provided `winner()` succeeds on every stored match,
`matches_won(name, false)` is exactly the filter of `team_matches(name)`
to the matches whose `winner()` equals `name`, and `matches_won(name,
true)` the filter to those plus every match whose `winner()` is the tie
marker `None`, whichever team tied. -/
theorem C8_matches_won (a : MatchAnalyzer) (name : Str)
    (hc : ∀ m ∈ a.match_data, ∃ w, m.winner = Except.ok w) :
    a.matches_won name false
        = .ok ((a.team_matches name).filter (fun m =>
            decide (m.winner = .ok (some name))))
    ∧ a.matches_won name true
        = .ok ((a.team_matches name).filter (fun m =>
            decide (m.winner = .ok (some name)) || decide (m.winner = .ok none))) := by
  have hsub : ∀ m ∈ a.team_matches name, ∃ w, m.winner = Except.ok w := by
    intro m hm
    unfold MatchAnalyzer.team_matches at hm
    exact hc m (List.Sublist.subset (List.filter_sublist _) hm)
  constructor
  · show filterE _ _ = _
    refine filterE_eq_filter _ _ _ ?_
    intro m hm
    obtain ⟨w, hw⟩ := hsub m hm
    rw [hw, bindOkEq, pureOkEq]
    simp
  · show filterE _ _ = _
    refine filterE_eq_filter _ _ _ ?_
    intro m hm
    obtain ⟨w, hw⟩ := hsub m hm
    rw [hw, bindOkEq, pureOkEq]
    simp

/-- C8 (witness): on the two matches Everton 2–0 Stoke City and Everton
2–2 Arsenal, `matches_won` returns the win alone without ties and the win
plus the tie with ties, matching the spec's worked example. -/
theorem C8_matches_won_witness :
    (MatchAnalyzer.mk
        [⟨"Everton".toList, "Stoke City".toList, ⟨1, 1, 2014⟩, .int 2, .int 0⟩,
         ⟨"Everton".toList, "Arsenal".toList, ⟨1, 1, 2014⟩, .int 2, .int 2⟩]).matches_won
        "Everton".toList false
      = .ok [⟨"Everton".toList, "Stoke City".toList, ⟨1, 1, 2014⟩, .int 2, .int 0⟩]
    ∧ (MatchAnalyzer.mk
        [⟨"Everton".toList, "Stoke City".toList, ⟨1, 1, 2014⟩, .int 2, .int 0⟩,
         ⟨"Everton".toList, "Arsenal".toList, ⟨1, 1, 2014⟩, .int 2, .int 2⟩]).matches_won
        "Everton".toList true
      = .ok [⟨"Everton".toList, "Stoke City".toList, ⟨1, 1, 2014⟩, .int 2, .int 0⟩,
             ⟨"Everton".toList, "Arsenal".toList, ⟨1, 1, 2014⟩, .int 2, .int 2⟩] := by
  have hc : ∀ m ∈ (MatchAnalyzer.mk
      [⟨"Everton".toList, "Stoke City".toList, ⟨1, 1, 2014⟩, .int 2, .int 0⟩,
       ⟨"Everton".toList, "Arsenal".toList, ⟨1, 1, 2014⟩, .int 2, .int 2⟩]).match_data,
      ∃ w, m.winner = Except.ok w := by
    intro m hm
    rcases List.mem_cons.mp hm with hm1 | hm2
    · exact ⟨some "Everton".toList, by rw [hm1]; rfl⟩
    · rcases List.mem_cons.mp hm2 with hm3 | hm4
      · exact ⟨none, by rw [hm3]; rfl⟩
      · exact absurd hm4 (List.not_mem_nil m)
  have h := C8_matches_won
    (MatchAnalyzer.mk
      [⟨"Everton".toList, "Stoke City".toList, ⟨1, 1, 2014⟩, .int 2, .int 0⟩,
       ⟨"Everton".toList, "Arsenal".toList, ⟨1, 1, 2014⟩, .int 2, .int 2⟩])
    "Everton".toList hc
  constructor
  · rw [h.1]; decide
  · rw [h.2]; decide

/-! ## C9 -/

/-- Each query method only reads the stored list, so the analyzer state
after a call equals the state before it. -/
lemma runQuery_preserves (a : MatchAnalyzer) (q : Query) : (a.runQuery q).2 = a := by
  cases q <;> rfl

/-- C9 (confirmed): after any sequence of `numberOfMatches`,
`teamMatches`, and `matchesWon` calls, the analyzer still stores exactly
the list passed to its constructor, and `number_of_matches()` still
returns that list's length: no query mutates or reorders the stored
match list. -/
theorem C9_count_invariant (l : List Match) (qs : List Query) :
    (runQueries (MatchAnalyzer.init l) qs).number_of_matches = l.length
    ∧ (runQueries (MatchAnalyzer.init l) qs).match_data = l := by
  have key : ∀ a : MatchAnalyzer, runQueries a qs = a := by
    induction qs with
    | nil => intro a; rfl
    | cons q qs ih =>
      intro a
      unfold runQueries
      rw [runQuery_preserves]
      exact ih a
  rw [key]
  exact ⟨rfl, rfl⟩

/-! ## C10 -/

/-- C10 (confirmed): when `load()` raises, the loader's stored `data` list
is unchanged by the call — the comprehension parses the whole batch before
the loop appends anything. -/
theorem C10_failed_load_keeps_data (l : MatchDataLoader) (e : PyErr)
    (h : (MatchDataLoader.load l).1 = .error e) :
    (MatchDataLoader.load l).2.data = l.data := by
  unfold MatchDataLoader.load at h ⊢
  cases hp : parseAll l.data_file with
  | ok parsed =>
    rw [hp] at h
    exact Except.noConfusion h
  | error e2 => rfl

/-- C10 (witness): loading the malformed single-line source `"oops"` fails
and leaves the fresh loader's empty `data` list empty. -/
theorem C10_failed_load_keeps_data_witness :
    (MatchDataLoader.load (MatchDataLoader.init ["oops".toList])).2.data = [] :=
  C10_failed_load_keeps_data (MatchDataLoader.init ["oops".toList]) .indexError (by decide)

end EPL
